import Mathlib

/-!
Verification of the AML bytecode parser of `acpi-rs` (`src/aml/parser.rs`),
via a shallow embedding in Lean 4.

Bytes are modelled as `Nat` (each value below 256 at every construction
site); the `u32` stream offsets and `u64` decoded integers are modelled as
`Nat`, since every arithmetic operation the source performs on them stays
far below `2^32` (resp. `2^64`) on the inputs the parser can construct: the
only additions are offset increments bounded by the slice length and
PkgLength sums bounded by `2^29`, so wrap-around is unreachable and the
`Nat` model agrees with the machine integers.  Fallible operations return
explicit result values carrying the state at the point of failure, mirroring
in-place mutation of `self` in Rust.  The two Rust loops (term lists and
field lists) are embedded with an explicit fuel parameter; running out of
fuel is a distinguished outcome that an actual run never produces when the
fuel exceeds the stream length, and theorems are stated so that the fuel
artifact cannot be mistaken for parser behaviour.
-/

/-- The parser error enumeration (`AmlError` in the repository).  The first
four constructors are exactly the variants `parser.rs` constructs.  The
`NotYetSupported` constructor is Modelled from the spec: the `AmlError` enum
declaration itself lives in `src/aml/mod.rs`, which is not under `src/`, and
spec section 7 lists a "not-yet-supported" error kind among the error
enumeration; `parser.rs` itself never constructs it. -/
inductive AmlError : Type
  | EndOfStream : AmlError
  | UnexpectedByte : Nat → AmlError
  | BacktrackedFromStart : AmlError
  | InvalidPath : String → AmlError
  | NotYetSupported : AmlError
deriving DecidableEq, Repr

/-- The region-space tag (`RegionSpace` in the repository's `value.rs`,
variants exactly as matched by `AmlParser::parse_def_op_region`). -/
inductive RegionSpace : Type
  | SystemMemory | SystemIo | PciConfig | EmbeddedControl | SMBus
  | SystemCmos | PciBarTarget | IPMI | GeneralPurposeIo | GenericSerialBus
  | OemDefined : Nat → RegionSpace
deriving DecidableEq, Repr

/-- The decoded-value union (`AmlValue` in the repository's `value.rs`),
restricted to the variants the parser constructs: 64-bit integers and
operation-region descriptors. -/
inductive AmlValue : Type
  | Integer : Nat → AmlValue
  | OpRegion : RegionSpace → Nat → Nat → AmlValue
deriving DecidableEq, Repr

/-- Modelled from the spec: `AmlValue::as_integer` lives in the repository's
`value.rs`, not under `src/`.  Spec section 4.5 requires the op-region offset
and length term arguments to be "each reduced to an integer"; reduction of a
non-integer value must fail.  The error kind chosen for the non-integer case
is unobservable here: every value `parse_term_arg` can produce is an
`Integer`. -/
def AmlValue.as_integer : AmlValue → Except AmlError Nat
  | .Integer n => .ok n
  | _ => .error AmlError.NotYetSupported

/-- `AmlStream`: an immutable byte slice plus a forward offset. -/
structure AmlStream : Type where
  data : List Nat
  offset : Nat
deriving DecidableEq, Repr

/-- Result of a stream operation: the value or error, together with the
stream as the operation left it (Rust mutates `self` in place, so a failing
multi-byte read keeps the bytes consumed before the failure). -/
inductive StResult (α : Type) : Type
  | ok : α → AmlStream → StResult α
  | err : AmlError → AmlStream → StResult α
deriving DecidableEq, Repr

namespace AmlStream

/-- `AmlStream::len`: `self.data.len() as u32` (the cast is exact for every
slice the parser is given). -/
def len (s : AmlStream) : Nat := s.data.length

/-- `AmlStream::peek`: fails iff `self.offset + 1 >= self.len()`, otherwise
returns `self.data[self.offset]` without consuming.  (The guard is the
source's, written exactly; see the C2 analysis.) -/
def peek (s : AmlStream) : Except AmlError Nat :=
  if s.offset + 1 ≥ s.len then .error AmlError.EndOfStream
  else .ok (s.data.getD s.offset 0)

/-- `AmlStream::next`: peek, then advance the offset by one. -/
def next (s : AmlStream) : StResult Nat :=
  match s.peek with
  | .error e => .err e s
  | .ok byte => .ok byte { s with offset := s.offset + 1 }

/-- `AmlStream::next_u16`: two successive `next` calls,
`first as u16 + ((second as u16) << 8)`. -/
def next_u16 (s : AmlStream) : StResult Nat :=
  match s.next with
  | .err e s1 => .err e s1
  | .ok first_byte s1 =>
    match s1.next with
    | .err e s2 => .err e s2
    | .ok second_byte s2 => .ok (first_byte + (second_byte <<< 8)) s2

/-- `AmlStream::next_u32` as written in the source: THREE successive `next`
calls, `first + (second << 8) + (third << 16)`. -/
def next_u32 (s : AmlStream) : StResult Nat :=
  match s.next with
  | .err e s1 => .err e s1
  | .ok first_byte s1 =>
    match s1.next with
    | .err e s2 => .err e s2
    | .ok second_byte s2 =>
      match s2.next with
      | .err e s3 => .err e s3
      | .ok third_byte s3 =>
        .ok (first_byte + (second_byte <<< 8) + (third_byte <<< 16)) s3

/-- `AmlStream::next_u64` as written in the source: FOUR successive `next`
calls, `first + (second << 8) + (third << 16) + (forth << 24)`. -/
def next_u64 (s : AmlStream) : StResult Nat :=
  match s.next with
  | .err e s1 => .err e s1
  | .ok first_byte s1 =>
    match s1.next with
    | .err e s2 => .err e s2
    | .ok second_byte s2 =>
      match s2.next with
      | .err e s3 => .err e s3
      | .ok third_byte s3 =>
        match s3.next with
        | .err e s4 => .err e s4
        | .ok forth_byte s4 =>
          .ok (first_byte + (second_byte <<< 8) + (third_byte <<< 16)
                + (forth_byte <<< 24)) s4

/-- `AmlStream::backtrack`: `self.offset.checked_sub(amount)`; fails with
`BacktrackedFromStart` on underflow. -/
def backtrack (s : AmlStream) (amount : Nat) : StResult Unit :=
  if amount ≤ s.offset then .ok () { s with offset := s.offset - amount }
  else .err AmlError.BacktrackedFromStart s

end AmlStream

/-- Parser state (`AmlParser`): the stream, the current scope string, and
the namespace store reached through `self.acpi.namespace`. -/
structure AmlParserState : Type where
  stream : AmlStream
  scope : String
  namespaceStore : List (String × AmlValue)
deriving DecidableEq, Repr

/-- Failure of a parser procedure.  `aml` wraps the structured `AmlError`
results the source returns; `unimplementedPanic` models the abort of Rust's
`unimplemented!()` macro, which is not an `AmlError` value and is never
caught; `outOfFuel` is an artifact of embedding the source's two `while`
loops with fuel and is unreachable for fuel larger than the slice length. -/
inductive PError : Type
  | aml : AmlError → PError
  | unimplementedPanic : PError
  | outOfFuel : PError
deriving DecidableEq, Repr

/-- Outcome of a parser procedure: value or failure, plus the parser state
exactly as the procedure left it (Rust mutates `self` in place, so failures
do not roll anything back by themselves). -/
inductive PResult (α : Type) : Type
  | ok : α → AmlParserState → PResult α
  | err : PError → AmlParserState → PResult α
deriving DecidableEq, Repr

/-- A parser procedure (`fn (&mut self, ...) -> Result<α, AmlError>`). -/
def ParseM (α : Type) : Type := AmlParserState → PResult α

/-- Sequencing of parser procedures: Rust's `?`-style control flow. -/
def pbind {α β : Type} (m : ParseM α) (f : α → ParseM β) : ParseM β :=
  fun s =>
    match m s with
    | .ok a s1 => f a s1
    | .err e s1 => .err e s1

/-- Return without touching the state. -/
def ppure {α : Type} (a : α) : ParseM α := fun s => .ok a s

/-- Fail, leaving the state where it is. -/
def throwP {α : Type} (e : PError) : ParseM α := fun s => .err e s

/-- Run a stream operation against the state's stream field. -/
def liftStream {α : Type} (f : AmlStream → StResult α) : ParseM α :=
  fun s =>
    match f s.stream with
    | .ok a st => .ok a { s with stream := st }
    | .err e st => .err (.aml e) { s with stream := st }

/-- `self.stream.peek()` as a parser step (no mutation). -/
def peekP : ParseM Nat :=
  fun s =>
    match s.stream.peek with
    | .ok b => .ok b s
    | .error e => .err (.aml e) s

/-- `self.stream.next()` as a parser step. -/
def streamNextP : ParseM Nat := liftStream AmlStream.next

/-- `self.stream.next_u16()` as a parser step. -/
def streamNextU16P : ParseM Nat := liftStream AmlStream.next_u16

/-- `self.stream.next_u32()` as a parser step. -/
def streamNextU32P : ParseM Nat := liftStream AmlStream.next_u32

/-- `self.stream.next_u64()` as a parser step. -/
def streamNextU64P : ParseM Nat := liftStream AmlStream.next_u64

/-- `self.stream.backtrack(n)` as a parser step. -/
def streamBacktrackP (amount : Nat) : ParseM Unit :=
  liftStream (fun st => st.backtrack amount)

/-- `self.stream.offset()` as a parser step. -/
def currentOffsetP : ParseM Nat := fun s => .ok s.stream.offset s

/-- Read `self.scope`. -/
def getScopeP : ParseM String := fun s => .ok s.scope s

/-- Write `self.scope`. -/
def setScopeP (sc : String) : ParseM Unit :=
  fun s => .ok () { s with scope := sc }

/-- Run a procedure and drop its `Result` (Rust lets an unused `Result` fall
on the floor with only a warning): the state mutations made before any
failure are kept, and the error is discarded. -/
def discardResult {α : Type} (m : ParseM α) : ParseM Unit :=
  fun s =>
    match m s with
    | .ok _ s1 => .ok () s1
    | .err _ s1 => .ok () s1

/-- Lift an `Except` computation (such as `AmlValue::as_integer`). -/
def liftExceptP {α : Type} (r : Except AmlError α) : ParseM α :=
  fun s =>
    match r with
    | .ok a => .ok a s
    | .error e => .err (.aml e) s

/-- Modelled from the spec: the namespace store (owned by `Acpi`, declared
outside `src/`) maps absolute path strings to values; section 3 states
"Keys are unique; last write wins if a path is redefined".  The insert
replaces the entry with the same key, else appends. -/
def nsInsert (key : String) (value : AmlValue) :
    List (String × AmlValue) → List (String × AmlValue)
  | [] => [(key, value)]
  | entry :: rest =>
    if entry.1 == key then (key, value) :: rest
    else entry :: nsInsert key value rest

/-- `self.acpi.namespace.insert(path, value)` as a parser step. -/
def insertNamespaceP (key : String) (value : AmlValue) : ParseM Unit :=
  fun s => .ok () { s with namespaceStore := nsInsert key value s.namespaceStore }

/-!
The opcode constants from the repository's `opcodes` module (the module
itself is outside `src/`; each value below is fixed by the AML grammar
comments inside `parser.rs`, quoted next to it, except the three name-path
prefixes, which are Modelled from the spec's ACPI name-path grammar).
-/
namespace opcodes

/-- `DefScope := 0x10 PkgLength NameString TermList` -/
def SCOPE_OP : Nat := 0x10

/-- `RevisionOp := ExtOpPrefix(0x5B) 0x30` -/
def EXT_OPCODE_PFX : Nat := 0x5B

/-- `DefOpRegion := ExtOpPrefix 0x80 NameString RegionSpace ...` -/
def EXT_OP_REGION_OP : Nat := 0x80

/-- `DefField = ExtOpPrefix 0x81 PkgLength NameString FieldFlags FieldList` -/
def EXT_FIELD_OP : Nat := 0x81

/-- `RevisionOp := ExtOpPrefix(0x5B) 0x30` -/
def EXT_REVISION_OP : Nat := 0x30

/-- `ByteConst := 0x0a ByteData` -/
def BYTE_CONST : Nat := 0x0A

/-- `WordConst := 0x0b WordData` -/
def WORD_CONST : Nat := 0x0B

/-- `DWordConst := 0x0c DWordData` -/
def DWORD_CONST : Nat := 0x0C

/-- `QWordConst := 0x0e QWordData` -/
def QWORD_CONST : Nat := 0x0E

/-- `String := 0x0d AsciiCharList NullChar` -/
def STRING_PFX : Nat := 0x0D

/-- `ConstObj := ZeroOp(0x00) | OneOp(0x01) | OnesOp(0xff)` -/
def ZERO_OP : Nat := 0x00

/-- `ConstObj := ZeroOp(0x00) | OneOp(0x01) | OnesOp(0xff)` -/
def ONE_OP : Nat := 0x01

/-- `ConstObj := ZeroOp(0x00) | OneOp(0x01) | OnesOp(0xff)` -/
def ONES_OP : Nat := 0xFF

/-- NullName (ACPI name-path grammar). -/
def NULL_NAME : Nat := 0x00

/-- DualNamePrefix byte (ACPI name-path grammar). -/
def DUAL_NAME_PFX : Nat := 0x2E

/-- MultiNamePrefix byte (ACPI name-path grammar). -/
def MULTI_NAME_PFX : Nat := 0x2F

end opcodes

deriving instance DecidableEq for Except

/-- Rust's `str::starts_with` on these ASCII path strings: prefix test on
the character sequences. -/
def starts_with (s : String) (pat : String) : Bool :=
  List.isPrefixOf pat.data s.data

/-- The free function `matches_byte`: equality predicate on one byte. -/
def matches_byte (byte : Nat) : Nat → Bool := fun x => x == byte

/-- The free function `is_lead_name_char`: uppercase ASCII letter or
underscore. -/
def is_lead_name_char (byte : Nat) : Bool :=
  (0x41 ≤ byte && byte ≤ 0x5A) || byte == 0x5F

/-- The free function `is_digit_char`. -/
def is_digit_char (byte : Nat) : Bool := 0x30 ≤ byte && byte ≤ 0x39

/-- The free function `is_name_char`. -/
def is_name_char (byte : Nat) : Bool := is_lead_name_char byte || is_digit_char byte

namespace AmlParser

/-- `AmlParser::consume_byte`: consume one byte, check it against the
predicate, fail with `UnexpectedByte` (byte already consumed) otherwise. -/
def consume_byte (predicate : Nat → Bool) : ParseM Nat :=
  pbind streamNextP (fun byte =>
    if predicate byte then ppure byte
    else throwP (.aml (.UnexpectedByte byte)))

/-- `AmlParser::match_byte`: peek and test, consuming nothing. -/
def match_byte (predicate : Nat → Bool) : ParseM Bool :=
  pbind peekP (fun byte => ppure (predicate byte))

/-- `AmlParser::consume_opcode`. -/
def consume_opcode (opcode : Nat) : ParseM Unit :=
  pbind (consume_byte (matches_byte opcode)) (fun _ => ppure ())

/-- `AmlParser::consume_ext_opcode`: the `0x5B` extension prefix and then
the given second byte. -/
def consume_ext_opcode (ext_opcode : Nat) : ParseM Unit :=
  pbind (consume_byte (matches_byte opcodes.EXT_OPCODE_PFX)) (fun _ =>
    pbind (consume_byte (matches_byte ext_opcode)) (fun _ => ppure ()))

/-- `AmlParser::match_opcode`: non-consuming single-opcode test. -/
def match_opcode (opcode : Nat) : ParseM Bool :=
  match_byte (matches_byte opcode)

/-- `AmlParser::match_ext_opcode`: on a prefix match it consumes the prefix
byte and peeks the second; a failed second test backtracks that one byte. -/
def match_ext_opcode (ext_opcode : Nat) : ParseM Bool :=
  pbind (match_byte (matches_byte opcodes.EXT_OPCODE_PFX)) (fun isPfx =>
    if !isPfx then ppure false
    else
      pbind streamNextP (fun _ =>
        pbind (match_byte (matches_byte ext_opcode)) (fun isExt =>
          if !isExt then
            pbind (streamBacktrackP 1) (fun _ => ppure false)
          else ppure true)))

/-- `AmlParser::try_parse`: snapshot the stream, run the procedure; keep
the result on success; on `UnexpectedByte` restore the stream (only the
stream — scope and namespace mutations stand) and answer "no match"; any
other failure propagates, stream left at the failure point. -/
def try_parse {α : Type} (parsing_function : ParseM α) : ParseM (Option α) :=
  fun s =>
    let stream := s.stream
    match parsing_function s with
    | .ok result s1 => .ok (some result) s1
    | .err (.aml (.UnexpectedByte _)) s1 => .ok none { s1 with stream := stream }
    | .err e s1 => .err e s1

/-- The `for i in 0..byte_data_count` loop of `AmlParser::parse_pkg_length`:
each additional byte contributes `byte << (4 + i * 8)`.  `remaining` counts
the iterations left, `i` is the source's loop index. -/
def pkg_length_loop : Nat → Nat → Nat → ParseM Nat
  | 0, _, length => ppure length
  | remaining + 1, i, length =>
    pbind streamNextP (fun byte =>
      pkg_length_loop remaining (i + 1) (length + (byte <<< (4 + i * 8))))

/-- `AmlParser::parse_pkg_length`.  `lead_byte.get_bits(6..8)` is
`lead_byte / 2^6 % 2^2`, `get_bits(0..6)` is `lead_byte % 2^6`,
`get_bits(0..4)` is `lead_byte % 2^4`.  When `byte_data_count` is zero the
source returns the six-bit length itself; otherwise it returns
`stream.offset() + length - byte_data_count - 1` (no `u32` wrap: the offset
counts the `byte_data_count + 1` prefix bytes just consumed, so the
subtraction cannot underflow, and the sum stays far below `2^32`). -/
def parse_pkg_length : ParseM Nat :=
  pbind streamNextP (fun lead_byte =>
    let byte_data_count := lead_byte / 2 ^ 6 % 2 ^ 2
    if byte_data_count == 0 then ppure (lead_byte % 2 ^ 6)
    else
      pbind (pkg_length_loop byte_data_count 0 (lead_byte % 2 ^ 4)) (fun length =>
        pbind currentOffsetP (fun off =>
          ppure (off + length - byte_data_count - 1))))

/-- `AmlParser::parse_name_seg`: a lead name character then three name
characters, as four raw bytes. -/
def parse_name_seg : ParseM (List Nat) :=
  pbind (consume_byte is_lead_name_char) (fun b0 =>
    pbind (consume_byte is_name_char) (fun b1 =>
      pbind (consume_byte is_name_char) (fun b2 =>
        pbind (consume_byte is_name_char) (fun b3 =>
          ppure [b0, b1, b2, b3]))))

/-- `str::from_utf8(&seg).unwrap()` on a name segment: the bytes are ASCII
(checked by `is_lead_name_char` / `is_name_char`), so the conversion is a
plain character-by-character decoding. -/
def segToString (seg : List Nat) : String :=
  String.mk (seg.map Char.ofNat)

/-- `AmlParser::parse_name_path`: NullName, DualNamePath, MultiNamePath
(an `unimplemented!()` stub), or a single name segment. -/
def parse_name_path : ParseM String :=
  pbind peekP (fun byte =>
    if byte == opcodes.NULL_NAME then
      pbind streamNextP (fun _ => ppure "")
    else if byte == opcodes.DUAL_NAME_PFX then
      pbind streamNextP (fun _ =>
        pbind parse_name_seg (fun first =>
          pbind parse_name_seg (fun second =>
            ppure (segToString first ++ segToString second))))
    else if byte == opcodes.MULTI_NAME_PFX then
      throwP .unimplementedPanic
    else
      pbind parse_name_seg (fun seg => ppure (segToString seg)))

/-- `AmlParser::parse_name_string`: a root-anchored path (leading `0x5C`,
the backslash), a parent-prefixed path (leading `0x5E`, the caret — an
`unimplemented!()` stub), or a bare name path. -/
def parse_name_string : ParseM String :=
  pbind peekP (fun byte =>
    if byte == 0x5C then
      pbind streamNextP (fun _ =>
        pbind parse_name_path (fun path => ppure ("\x5c" ++ path)))
    else if byte == 0x5E then
      throwP .unimplementedPanic
    else parse_name_path)

/-- The `while path.starts_with("^")` loop of `AmlParser::resolve_path`,
over the characters of `path`: each leading caret strips itself off `path`
and then pops one character (`String::pop`) off the working scope copy,
failing with `InvalidPath(original_path)` when the working copy is already
empty.  On the first non-caret character (or exhaustion) the result is the
working copy concatenated with what is left of `path`. -/
def resolve_path_pops : List Char → List Char → String → Except AmlError String
  | c :: rest, nso, original_path =>
    if c == '^' then
      if nso == [] then .error (.InvalidPath original_path)
      else resolve_path_pops rest nso.dropLast original_path
    else .ok (String.mk (nso ++ c :: rest))
  | [], nso, _ => .ok (String.mk nso)

/-- `AmlParser::resolve_path`: if the current scope is empty or the path is
root-anchored, return the path unchanged; otherwise apply the caret pops to
a working copy of the scope and append the remaining path. -/
def resolve_path (path : String) : ParseM String :=
  fun s =>
    let original_path := path
    if s.scope == "" || starts_with path "\x5c" then .ok path s
    else
      match resolve_path_pops path.data s.scope.data original_path with
      | .ok result => .ok result s
      | .error e => .err (.aml e) s

/-- `AmlParser::parse_def_buffer`: an `unimplemented!()` stub. -/
def parse_def_buffer : ParseM AmlValue := throwP .unimplementedPanic

/-- `AmlParser::parse_type1_opcode`: an `unimplemented!()` stub. -/
def parse_type1_opcode : ParseM Unit := throwP .unimplementedPanic

/-- `AmlParser::parse_field_element` (NamedField, ReservedField,
AccessField, ConnectField): an `unimplemented!()` stub. -/
def parse_field_element : ParseM Unit := throwP .unimplementedPanic

/-- `AmlParser::parse_computational_data`: the literal integer forms, the
string/revision extension stubs, or `parse_def_buffer` as the fallback. -/
def parse_computational_data : ParseM AmlValue :=
  pbind (match_opcode opcodes.BYTE_CONST) (fun isByte =>
    if isByte then
      pbind (consume_opcode opcodes.BYTE_CONST) (fun _ =>
        pbind streamNextP (fun b => ppure (AmlValue.Integer b)))
    else
      pbind (match_opcode opcodes.WORD_CONST) (fun isWord =>
        if isWord then
          pbind (consume_opcode opcodes.WORD_CONST) (fun _ =>
            pbind streamNextU16P (fun w => ppure (AmlValue.Integer w)))
        else
          pbind (match_opcode opcodes.DWORD_CONST) (fun isDword =>
            if isDword then
              pbind (consume_opcode opcodes.DWORD_CONST) (fun _ =>
                pbind streamNextU32P (fun d => ppure (AmlValue.Integer d)))
            else
              pbind (match_opcode opcodes.QWORD_CONST) (fun isQword =>
                if isQword then
                  pbind (consume_opcode opcodes.QWORD_CONST) (fun _ =>
                    pbind streamNextU64P (fun q => ppure (AmlValue.Integer q)))
                else
                  pbind (match_opcode opcodes.STRING_PFX) (fun isString =>
                    if isString then throwP .unimplementedPanic
                    else
                      pbind (match_opcode opcodes.ZERO_OP) (fun isZero =>
                        if isZero then
                          pbind streamNextP (fun _ => ppure (AmlValue.Integer 0))
                        else
                          pbind (match_opcode opcodes.ONE_OP) (fun isOne =>
                            if isOne then
                              pbind streamNextP (fun _ => ppure (AmlValue.Integer 1))
                            else
                              pbind (match_opcode opcodes.ONES_OP) (fun isOnes =>
                                if isOnes then
                                  pbind streamNextP (fun _ =>
                                    ppure (AmlValue.Integer (2 ^ 64 - 1)))
                                else
                                  pbind (match_ext_opcode opcodes.EXT_REVISION_OP)
                                    (fun isRev =>
                                      if isRev then throwP .unimplementedPanic
                                      else parse_def_buffer)))))))))

/-- `AmlParser::parse_term_arg`: try `parse_computational_data`
speculatively; when it reports no match, consume one byte and fail with
`UnexpectedByte` carrying it. -/
def parse_term_arg : ParseM AmlValue :=
  pbind (try_parse parse_computational_data) (fun result =>
    match result with
    | some value => ppure value
    | none =>
      pbind streamNextP (fun byte => throwP (.aml (.UnexpectedByte byte))))

/-- `AmlParser::parse_def_op_region`.  The source's first line calls
`consume_ext_opcode(EXT_OPCODE_PREFIX)` and DROPS the `Result` (no `?`): in
practice one byte (the `0x80` the dispatcher left under the cursor) is
consumed and the predicate failure is discarded.  The region-space match
uses Rust's EXCLUSIVE range pattern `0x80..0xff`, so `0xFF` falls through
to the `UnexpectedByte` arm. -/
def parse_def_op_region : ParseM Unit :=
  pbind (discardResult (consume_ext_opcode opcodes.EXT_OPCODE_PFX)) (fun _ =>
    pbind parse_name_string (fun name =>
      pbind streamNextP (fun space_byte =>
        pbind
          (if space_byte == 0x00 then ppure RegionSpace.SystemMemory
           else if space_byte == 0x01 then ppure RegionSpace.SystemIo
           else if space_byte == 0x02 then ppure RegionSpace.PciConfig
           else if space_byte == 0x03 then ppure RegionSpace.EmbeddedControl
           else if space_byte == 0x04 then ppure RegionSpace.SMBus
           else if space_byte == 0x05 then ppure RegionSpace.SystemCmos
           else if space_byte == 0x06 then ppure RegionSpace.PciBarTarget
           else if space_byte == 0x07 then ppure RegionSpace.IPMI
           else if space_byte == 0x08 then ppure RegionSpace.GeneralPurposeIo
           else if space_byte == 0x09 then ppure RegionSpace.GenericSerialBus
           else if 0x80 ≤ space_byte ∧ space_byte < 0xFF then
             ppure (RegionSpace.OemDefined space_byte)
           else throwP (.aml (.UnexpectedByte space_byte)))
          (fun region_space =>
            pbind parse_term_arg (fun offsetValue =>
              pbind (liftExceptP offsetValue.as_integer) (fun offset =>
                pbind parse_term_arg (fun lengthValue =>
                  pbind (liftExceptP lengthValue.as_integer) (fun length =>
                    pbind (resolve_path name) (fun namespace_path =>
                      insertNamespaceP namespace_path
                        (AmlValue.OpRegion region_space offset length))))))))))

/-- The `while self.stream.offset() < end_offset` loop of
`AmlParser::parse_field_list` (note: STRICT comparison, unlike the term-list
loop), with fuel for the loop itself. -/
def parse_field_list : Nat → Nat → ParseM Unit
  | 0, _ => throwP .outOfFuel
  | fuel + 1, end_offset =>
    fun s =>
      if s.stream.offset < end_offset then
        pbind parse_field_element (fun _ => parse_field_list fuel end_offset) s
      else .ok () s

/-- `AmlParser::parse_def_field`: extended opcode `0x81`, PkgLength, name,
one flags byte, then the field list up to the decoded end offset. -/
def parse_def_field (fuel : Nat) : ParseM Unit :=
  pbind (consume_ext_opcode opcodes.EXT_FIELD_OP) (fun _ =>
    pbind parse_pkg_length (fun end_offset =>
      pbind parse_name_string (fun _ =>
        pbind streamNextP (fun _ =>
          pbind (parse_field_list fuel end_offset) (fun _ => ppure ())))))

end AmlParser

mutual

/-- The `while self.stream.offset() <= end_offset` loop of
`AmlParser::parse_term_list` (note: NON-strict comparison — the loop body
still runs when the offset equals the end offset), with fuel for the
recursion. -/
def AmlParser.parse_term_list : Nat → Nat → ParseM Unit
  | 0, _ => throwP .outOfFuel
  | fuel + 1, end_offset =>
    fun s =>
      if s.stream.offset ≤ end_offset then
        pbind (AmlParser.parse_term_object fuel)
          (fun _ => AmlParser.parse_term_list fuel end_offset) s
      else .ok () s

/-- `AmlParser::parse_term_object`: dispatch on the leading byte(s) — a
scope declaration, an op-region declaration, then speculative attempts at a
field declaration and a type-1 opcode, and finally `UnexpectedByte` with
the peeked byte. -/
def AmlParser.parse_term_object : Nat → ParseM Unit
  | 0 => throwP .outOfFuel
  | fuel + 1 =>
    pbind (AmlParser.match_opcode opcodes.SCOPE_OP) (fun isScope =>
      if isScope then AmlParser.parse_def_scope fuel
      else
        pbind (AmlParser.match_ext_opcode opcodes.EXT_OP_REGION_OP)
          (fun isOpRegion =>
            if isOpRegion then AmlParser.parse_def_op_region
            else
              pbind (AmlParser.try_parse (AmlParser.parse_def_field fuel))
                (fun fieldResult =>
                  match fieldResult with
                  | some _ => ppure ()
                  | none =>
                    pbind (AmlParser.try_parse AmlParser.parse_type1_opcode)
                      (fun type1Result =>
                        match type1Result with
                        | some _ => ppure ()
                        | none =>
                          pbind peekP (fun byte =>
                            throwP (.aml (.UnexpectedByte byte)))))))

/-- `AmlParser::parse_def_scope`: opcode `0x10`, PkgLength, name string;
swap the scope to the (unresolved) name string, parse the nested term list
to the decoded end offset, then restore the prior scope.  As in the source,
the restore only happens on the success path — a failing nested parse
propagates with the scope still swapped. -/
def AmlParser.parse_def_scope : Nat → ParseM Unit
  | 0 => throwP .outOfFuel
  | fuel + 1 =>
    pbind (AmlParser.consume_opcode opcodes.SCOPE_OP) (fun _ =>
      pbind AmlParser.parse_pkg_length (fun scope_end_offset =>
        pbind AmlParser.parse_name_string (fun name_string =>
          pbind getScopeP (fun containing_scope =>
            pbind (setScopeP name_string) (fun _ =>
              pbind (AmlParser.parse_term_list fuel scope_end_offset) (fun _ =>
                setScopeP containing_scope))))))

end

/-- `AmlParser::parse`: build the parser state over the given stream, scope
and namespace store, and parse a term list bounded by the stream length. -/
def AmlParser.parse (fuel : Nat) (store : List (String × AmlValue))
    (scope : String) (stream : AmlStream) : PResult Unit :=
  AmlParser.parse_term_list fuel stream.len
    { stream := stream, scope := scope, namespaceStore := store }

/-!
Helper lemmas: decomposing sequenced runs and tracking which fields a
procedure can touch.
-/

/-- A successful `pbind` run splits into a successful first step and a
successful continuation. -/
theorem pbind_ok {α β : Type} {m : ParseM α} {f : α → ParseM β}
    {s s2 : AmlParserState} {b : β} (h : pbind m f s = .ok b s2) :
    ∃ a s1, m s = .ok a s1 ∧ f a s1 = .ok b s2 := by
  unfold pbind at h
  cases hm : m s with
  | ok a s1 => exact ⟨a, s1, rfl, by rw [hm] at h; exact h⟩
  | err e s1 => rw [hm] at h; cases h

/-- A procedure that never changes the `scope` field on success. -/
def PreservesScope {α : Type} (m : ParseM α) : Prop :=
  ∀ s a s1, m s = .ok a s1 → s1.scope = s.scope

theorem preservesScope_ppure {α : Type} (a : α) : PreservesScope (ppure a) := by
  intro s b s1 h
  unfold ppure at h
  cases h
  rfl

theorem preservesScope_throwP {α : Type} (e : PError) :
    PreservesScope (throwP (α := α) e) := by
  intro s b s1 h
  cases h

theorem preservesScope_liftStream {α : Type} (f : AmlStream → StResult α) :
    PreservesScope (liftStream f) := by
  intro s b s1 h
  unfold liftStream at h
  cases hf : f s.stream with
  | ok a st => rw [hf] at h; cases h; rfl
  | err e st => rw [hf] at h; cases h

theorem preservesScope_peekP : PreservesScope peekP := by
  intro s b s1 h
  unfold peekP at h
  cases hp : s.stream.peek with
  | ok v => rw [hp] at h; cases h; rfl
  | error e => rw [hp] at h; cases h

theorem preservesScope_currentOffsetP : PreservesScope currentOffsetP := by
  intro s b s1 h
  cases h
  rfl

theorem preservesScope_pbind {α β : Type} {m : ParseM α} {f : α → ParseM β}
    (hm : PreservesScope m) (hf : ∀ a, PreservesScope (f a)) :
    PreservesScope (pbind m f) := by
  intro s b s2 h
  obtain ⟨a, s1, h1, h2⟩ := pbind_ok h
  rw [hf a s1 b s2 h2, hm s a s1 h1]

theorem preservesScope_streamNextP : PreservesScope streamNextP :=
  preservesScope_liftStream _

theorem preservesScope_consume_byte (p : Nat → Bool) :
    PreservesScope (AmlParser.consume_byte p) := by
  apply preservesScope_pbind preservesScope_streamNextP
  intro a
  by_cases hp : p a <;> simp [hp, preservesScope_ppure, preservesScope_throwP]

theorem preservesScope_consume_opcode (op : Nat) :
    PreservesScope (AmlParser.consume_opcode op) :=
  preservesScope_pbind (preservesScope_consume_byte _)
    (fun _ => preservesScope_ppure _)

theorem preservesScope_pkg_length_loop (remaining i length : Nat) :
    PreservesScope (AmlParser.pkg_length_loop remaining i length) := by
  induction remaining generalizing i length with
  | zero => exact preservesScope_ppure _
  | succ n ih =>
    exact preservesScope_pbind preservesScope_streamNextP (fun b => ih _ _)

theorem preservesScope_parse_pkg_length :
    PreservesScope AmlParser.parse_pkg_length := by
  apply preservesScope_pbind preservesScope_streamNextP
  intro lead
  dsimp only
  split
  · exact preservesScope_ppure _
  · exact preservesScope_pbind (preservesScope_pkg_length_loop _ _ _)
      (fun len => preservesScope_pbind preservesScope_currentOffsetP
        (fun off => preservesScope_ppure _))

theorem preservesScope_parse_name_seg :
    PreservesScope AmlParser.parse_name_seg := by
  refine preservesScope_pbind (preservesScope_consume_byte _) (fun b0 => ?_)
  refine preservesScope_pbind (preservesScope_consume_byte _) (fun b1 => ?_)
  refine preservesScope_pbind (preservesScope_consume_byte _) (fun b2 => ?_)
  exact preservesScope_pbind (preservesScope_consume_byte _)
    (fun b3 => preservesScope_ppure _)

theorem preservesScope_parse_name_path :
    PreservesScope AmlParser.parse_name_path := by
  apply preservesScope_pbind preservesScope_peekP
  intro byte
  by_cases hnull : byte == opcodes.NULL_NAME
  · simp [hnull]
    exact preservesScope_pbind preservesScope_streamNextP
      (fun _ => preservesScope_ppure _)
  · by_cases hdual : byte == opcodes.DUAL_NAME_PFX
    · simp [hnull, hdual]
      refine preservesScope_pbind preservesScope_streamNextP (fun _ => ?_)
      refine preservesScope_pbind preservesScope_parse_name_seg (fun f => ?_)
      exact preservesScope_pbind preservesScope_parse_name_seg
        (fun g => preservesScope_ppure _)
    · by_cases hmulti : byte == opcodes.MULTI_NAME_PFX <;>
        simp [hnull, hdual, hmulti]
      · exact preservesScope_throwP _
      · exact preservesScope_pbind preservesScope_parse_name_seg
          (fun seg => preservesScope_ppure _)

theorem preservesScope_parse_name_string :
    PreservesScope AmlParser.parse_name_string := by
  apply preservesScope_pbind preservesScope_peekP
  intro byte
  by_cases hroot : byte == 0x5C
  · simp [hroot]
    refine preservesScope_pbind preservesScope_streamNextP (fun _ => ?_)
    exact preservesScope_pbind preservesScope_parse_name_path
      (fun p => preservesScope_ppure _)
  · by_cases hcaret : byte == 0x5E <;> simp [hroot, hcaret]
    · exact preservesScope_throwP _
    · exact preservesScope_parse_name_path

/-!
Claim theorems.
-/

/-- C2: evaluation at the failing input.  On the one-byte stream `[0x05]`
with the cursor at offset 0, exactly one unread byte remains, yet `peek`
and `next` both fail with `EndOfStream` (the guard compares `offset + 1`
against the length instead of `offset`), contradicting the claim that they
fail only when fewer bytes than requested remain. -/
theorem C2_peek_last_byte_bug :
    AmlStream.peek { data := [0x05], offset := 0 } =
        Except.error AmlError.EndOfStream
      ∧ AmlStream.next { data := [0x05], offset := 0 } =
        StResult.err AmlError.EndOfStream { data := [0x05], offset := 0 }
      ∧ AmlStream.len { data := [0x05], offset := 0 } = 1 := by
  exact ⟨by decide, by decide, by decide⟩

/-- C3: evaluation at the failing input.  On the stream `[1,…,10]`,
`next_u32` consumes three bytes and returns `0x030201`, not four bytes and
`0x04030201` as the claim states; `next_u64` consumes four bytes and
returns `0x04030201`, not eight bytes and the 64-bit little-endian value. -/
theorem C3_multibyte_read_bug :
    AmlStream.next_u32 { data := [1, 2, 3, 4, 5, 6, 7, 8, 9, 10], offset := 0 } =
        StResult.ok 0x030201 { data := [1, 2, 3, 4, 5, 6, 7, 8, 9, 10], offset := 3 }
      ∧ AmlStream.next_u64 { data := [1, 2, 3, 4, 5, 6, 7, 8, 9, 10], offset := 0 } =
        StResult.ok 0x04030201 { data := [1, 2, 3, 4, 5, 6, 7, 8, 9, 10], offset := 4 }
      ∧ (0x030201 : Nat) ≠ 0x04030201 := by
  exact ⟨by decide, by decide, by decide⟩

/-- C4: evaluation at the failing input.  With the cursor on the
single-byte PkgLength `0x05` at offset 1 (extra-byte-count 0, length 5),
`parse_pkg_length` returns the raw length 5; the claim's formula
`current_offset + length − (extra_byte_count + 1)` gives `2 + 5 − 1 = 6`. -/
theorem C4_pkg_length_single_byte_bug :
    AmlParser.parse_pkg_length
        { stream := { data := [0x00, 0x05, 0x00], offset := 1 },
          scope := "", namespaceStore := [] } =
      PResult.ok 5
        { stream := { data := [0x00, 0x05, 0x00], offset := 2 },
          scope := "", namespaceStore := [] }
      ∧ (5 : Nat) ≠ 2 + 5 - 1 := by
  exact ⟨by decide, by decide⟩

/-- C5: evaluation at the failing input.  Against scope `\_SB_`, the bare
name `DEV0` resolves to `\_SB_DEV0` as the claim says, but `^DEV0` resolves
to `\_SBDEV0`: each caret pops one character (`String::pop`), not one
whole 4-character segment, so the result is neither `\DEV0` nor any
segment-aligned path. -/
theorem C5_parent_pop_pops_one_char :
    AmlParser.resolve_path "DEV0"
        { stream := { data := [], offset := 0 },
          scope := "\x5c_SB_", namespaceStore := [] } =
      PResult.ok "\x5c_SB_DEV0"
        { stream := { data := [], offset := 0 },
          scope := "\x5c_SB_", namespaceStore := [] }
      ∧ AmlParser.resolve_path "^DEV0"
        { stream := { data := [], offset := 0 },
          scope := "\x5c_SB_", namespaceStore := [] } =
      PResult.ok "\x5c_SBDEV0"
        { stream := { data := [], offset := 0 },
          scope := "\x5c_SB_", namespaceStore := [] }
      ∧ ("\x5c_SBDEV0" : String) ≠ "\x5cDEV0" := by
  exact ⟨by decide, by decide, by decide⟩

/-- C6: evaluation at the failing input.  An op-region whose region-space
tag byte is `0xFF` fails with `UnexpectedByte(0xFF)` — the source's match
arm is the EXCLUSIVE range `0x80..0xff` — although the claim (and the
source's own grammar comment) places `0xFF` in the OEM-defined range.  The
companion conjunct shows the same declaration with tag byte `0x80` parsing
to completion as an `OemDefined` region. -/
theorem C6_region_space_ff_excluded :
    AmlParser.parse_def_op_region
        { stream := { data := [0x80, 0x00, 0xFF, 0xAA], offset := 0 },
          scope := "\x5c", namespaceStore := [] } =
      PResult.err (PError.aml (AmlError.UnexpectedByte 0xFF))
        { stream := { data := [0x80, 0x00, 0xFF, 0xAA], offset := 3 },
          scope := "\x5c", namespaceStore := [] }
      ∧ AmlParser.parse_def_op_region
        { stream := { data := [0x80, 0x00, 0x80, 0x0A, 0x10, 0x0A, 0x04, 0xAA],
                      offset := 0 },
          scope := "\x5c", namespaceStore := [] } =
      PResult.ok ()
        { stream := { data := [0x80, 0x00, 0x80, 0x0A, 0x10, 0x0A, 0x04, 0xAA],
                      offset := 7 },
          scope := "\x5c",
          namespaceStore :=
            [("\x5c", AmlValue.OpRegion (RegionSpace.OemDefined 0x80) 16 4)] } := by
  exact ⟨by decide, by decide⟩

/-- C10: with an empty current scope, `resolve_path` short-circuits and
returns every path unchanged — relative paths get no scope prefix, leading
caret markers are neither processed nor checked, and no `InvalidPath` error
can arise. -/
theorem C10_empty_scope_returns_path_unchanged
    (path : String) (stream : AmlStream) (store : List (String × AmlValue)) :
    AmlParser.resolve_path path
        { stream := stream, scope := "", namespaceStore := store } =
      PResult.ok path
        { stream := stream, scope := "", namespaceStore := store } := by
  have hguard : (("" : String) == "") = true := by decide
  simp [AmlParser.resolve_path, hguard]

/-- Whenever a term-list run returns successfully, the final cursor offset
is strictly beyond the end offset: the loop condition is `offset <=
end_offset`, so it can only have stopped once the offset exceeded it. -/
theorem parse_term_list_ok_offset {fuel end_offset : Nat}
    {s s1 : AmlParserState} {u : Unit}
    (h : AmlParser.parse_term_list fuel end_offset s = PResult.ok u s1) :
    end_offset < s1.stream.offset := by
  induction fuel generalizing s with
  | zero => exact absurd h (by simp [AmlParser.parse_term_list, throwP])
  | succ n ih =>
    simp only [AmlParser.parse_term_list] at h
    by_cases hle : s.stream.offset ≤ end_offset
    · rw [if_pos hle] at h
      obtain ⟨a, smid, h1, h2⟩ := pbind_ok h
      exact ih h2
    · rw [if_neg hle] at h
      cases h
      exact Nat.lt_of_not_le hle

/-- C1 (amended): a term list bounded by end offset E stops issuing
term-object parses only once the cursor offset STRICTLY exceeds E — when
the offset merely equals E (or is below it) one further term object is
parsed, because the loop condition is non-strict.  Conjuncts: (i) at
offset > E the loop returns at once, stream untouched; (ii) every
successful run ends at offset > E; (iii) at offset <= E the loop issues a
term-object parse and continues. -/
theorem C1_term_list_boundary (fuel end_offset : Nat) (s : AmlParserState) :
    (end_offset < s.stream.offset →
        AmlParser.parse_term_list (fuel + 1) end_offset s = PResult.ok () s)
  ∧ (∀ (u : Unit) (s1 : AmlParserState),
        AmlParser.parse_term_list fuel end_offset s = PResult.ok u s1 →
        end_offset < s1.stream.offset)
  ∧ (s.stream.offset ≤ end_offset →
        AmlParser.parse_term_list (fuel + 1) end_offset s =
          pbind (AmlParser.parse_term_object fuel)
            (fun _ => AmlParser.parse_term_list fuel end_offset) s) := by
  refine ⟨?_, ?_, ?_⟩
  · intro hgt
    simp only [AmlParser.parse_term_list]
    rw [if_neg (Nat.not_le_of_lt hgt)]
  · intro u s1 h
    exact parse_term_list_ok_offset h
  · intro hle
    simp only [AmlParser.parse_term_list]
    rw [if_pos hle]

/-- C1 counterexample: a term list bounded by end offset 0 whose cursor is
already AT offset 0, with two bytes remaining beyond the boundary.  The
claim says no further term-object parse is issued, which would mean an
immediate successful return; instead the loop body runs once more and the
run aborts inside the term-object dispatch (the `0x00` byte reaches the
`parse_type1_opcode` stub). -/
theorem C1_term_list_boundary_counterexample :
    AmlParser.parse_term_list 9 0
        { stream := { data := [0x00, 0x00], offset := 0 },
          scope := "\x5c", namespaceStore := [] } =
      PResult.err PError.unimplementedPanic
        { stream := { data := [0x00, 0x00], offset := 0 },
          scope := "\x5c", namespaceStore := [] }
      ∧ AmlParser.parse_term_list 9 0
        { stream := { data := [0x00, 0x00], offset := 0 },
          scope := "\x5c", namespaceStore := [] } ≠
      PResult.ok ()
        { stream := { data := [0x00, 0x00], offset := 0 },
          scope := "\x5c", namespaceStore := [] } := by
  exact ⟨by decide, by decide⟩

/-- C1 witness: the amended theorem applied at concrete inputs — a cursor
one past the end offset stops at once; a successful bounded run ends
strictly past the end offset; a cursor at the end offset still issues a
term-object parse. -/
theorem C1_term_list_boundary_witness :
    AmlParser.parse_term_list 4 0
        { stream := { data := [0x00, 0x00], offset := 1 },
          scope := "", namespaceStore := [] } =
      PResult.ok ()
        { stream := { data := [0x00, 0x00], offset := 1 },
          scope := "", namespaceStore := [] }
      ∧ (0 : Nat) < 1
      ∧ AmlParser.parse_term_list 9 3
        { stream := { data := [0x00, 0x00], offset := 3 },
          scope := "", namespaceStore := [] } =
      pbind (AmlParser.parse_term_object 8)
        (fun _ => AmlParser.parse_term_list 8 3)
        { stream := { data := [0x00, 0x00], offset := 3 },
          scope := "", namespaceStore := [] } := by
  refine ⟨?_, ?_, ?_⟩
  · exact (C1_term_list_boundary 3 0
      { stream := { data := [0x00, 0x00], offset := 1 },
        scope := "", namespaceStore := [] }).1 (by decide)
  · exact (C1_term_list_boundary 4 0
      { stream := { data := [0x00, 0x00], offset := 1 },
        scope := "", namespaceStore := [] }).2.1 ()
      { stream := { data := [0x00, 0x00], offset := 1 },
        scope := "", namespaceStore := [] } (by decide)
  · exact (C1_term_list_boundary 8 3
      { stream := { data := [0x00, 0x00], offset := 3 },
        scope := "", namespaceStore := [] }).2.2 (by decide)

/-- C7 counterexample: a `DefScope` (`0x10`, PkgLength `0x3F`, null name)
whose nested term list fails with `EndOfStream`.  The error propagates with
the parser's scope left at the nested value `""`, NOT restored to the prior
`\_SB_` — the source only restores on the success path. -/
theorem C7_scope_restoration_counterexample :
    AmlParser.parse_def_scope 9
        { stream := { data := [0x10, 0x3F, 0x00, 0x00], offset := 0 },
          scope := "\x5c_SB_", namespaceStore := [] } =
      PResult.err (PError.aml AmlError.EndOfStream)
        { stream := { data := [0x10, 0x3F, 0x00, 0x00], offset := 3 },
          scope := "", namespaceStore := [] }
      ∧ ("" : String) ≠ "\x5c_SB_" := by
  exact ⟨by decide, by decide⟩

/-- C7 (amended): on every SUCCESSFUL `parse_def_scope` run the scope is
restored to its prior value once the nested term list finishes; on early
return the restoration does not happen (see the counterexample). -/
theorem C7_scope_restored_on_success (fuel : Nat) (s : AmlParserState)
    (r : Unit) (s1 : AmlParserState)
    (h : AmlParser.parse_def_scope fuel s = PResult.ok r s1) :
    s1.scope = s.scope := by
  cases fuel with
  | zero => exact absurd h (by simp [AmlParser.parse_def_scope, throwP])
  | succ n =>
    simp only [AmlParser.parse_def_scope] at h
    obtain ⟨a1, t1, h1, h⟩ := pbind_ok h
    obtain ⟨a2, t2, h2, h⟩ := pbind_ok h
    obtain ⟨a3, t3, h3, h⟩ := pbind_ok h
    obtain ⟨a4, t4, h4, h⟩ := pbind_ok h
    obtain ⟨a5, t5, h5, h⟩ := pbind_ok h
    obtain ⟨a6, t6, h6, h⟩ := pbind_ok h
    simp only [getScopeP, PResult.ok.injEq] at h4
    obtain ⟨ha4, ht4⟩ := h4
    simp only [setScopeP, PResult.ok.injEq] at h
    obtain ⟨hr, hs1⟩ := h
    subst hs1
    show a4 = s.scope
    rw [← ha4]
    rw [preservesScope_parse_name_string t2 a3 t3 h3,
      preservesScope_parse_pkg_length t1 a2 t2 h2,
      preservesScope_consume_opcode opcodes.SCOPE_OP s a1 t1 h1]

/-- C7 witness: a concrete successful `DefScope` parse (opcode, one-byte
PkgLength ending before the name's end, null name) restores the `\_SB_`
scope. -/
theorem C7_scope_restored_on_success_witness :
    AmlParser.parse_def_scope 9
        { stream := { data := [0x10, 0x02, 0x00, 0xAA], offset := 0 },
          scope := "\x5c_SB_", namespaceStore := [] } =
      PResult.ok ()
        { stream := { data := [0x10, 0x02, 0x00, 0xAA], offset := 3 },
          scope := "\x5c_SB_", namespaceStore := [] }
      ∧ ({ stream := { data := [0x10, 0x02, 0x00, 0xAA], offset := 3 },
           scope := "\x5c_SB_", namespaceStore := [] } : AmlParserState).scope =
        ({ stream := { data := [0x10, 0x02, 0x00, 0xAA], offset := 0 },
           scope := "\x5c_SB_", namespaceStore := [] } : AmlParserState).scope := by
  refine ⟨by decide, ?_⟩
  exact C7_scope_restored_on_success 9
    { stream := { data := [0x10, 0x02, 0x00, 0xAA], offset := 0 },
      scope := "\x5c_SB_", namespaceStore := [] } ()
    { stream := { data := [0x10, 0x02, 0x00, 0xAA], offset := 3 },
      scope := "\x5c_SB_", namespaceStore := [] } (by decide)

/-- C8: the speculative dispatcher.  (i) On success, the value is returned
and the parser keeps the state — cursor included — at the post-parse
position.  (ii) On an `UnexpectedByte` failure the cursor is restored to
the pre-invocation snapshot (only the stream: scope and namespace
mutations stand, as in the source) and "no match" is returned instead of
an error.  (iii) Any other failure propagates unchanged, the cursor left
wherever the failure occurred. -/
theorem C8_try_parse_dispatch {α : Type} (f : ParseM α) (s : AmlParserState) :
    (∀ (v : α) (s1 : AmlParserState), f s = PResult.ok v s1 →
        AmlParser.try_parse f s = PResult.ok (some v) s1)
  ∧ (∀ (b : Nat) (s1 : AmlParserState),
        f s = PResult.err (PError.aml (AmlError.UnexpectedByte b)) s1 →
        AmlParser.try_parse f s = PResult.ok none { s1 with stream := s.stream })
  ∧ (∀ (e : PError) (s1 : AmlParserState), f s = PResult.err e s1 →
        (∀ b, e ≠ PError.aml (AmlError.UnexpectedByte b)) →
        AmlParser.try_parse f s = PResult.err e s1) := by
  refine ⟨?_, ?_, ?_⟩
  · intro v s1 h
    simp [AmlParser.try_parse, h]
  · intro b s1 h
    simp [AmlParser.try_parse, h]
  · intro e s1 h hne
    cases e with
    | aml ae =>
      cases ae with
      | UnexpectedByte b => exact absurd rfl (hne b)
      | EndOfStream => simp [AmlParser.try_parse, h]
      | BacktrackedFromStart => simp [AmlParser.try_parse, h]
      | InvalidPath p => simp [AmlParser.try_parse, h]
      | NotYetSupported => simp [AmlParser.try_parse, h]
    | unimplementedPanic => simp [AmlParser.try_parse, h]
    | outOfFuel => simp [AmlParser.try_parse, h]

/-- C8 witness: the three dispatch outcomes at concrete inputs, with
`parse_name_path` as the attempted production.  A null name parses (cursor
kept at the post-parse position); a digit lead byte is an `UnexpectedByte`
(cursor restored to offset 0 although the failed attempt had consumed the
byte); an empty stream is an `EndOfStream` (propagated, not converted). -/
theorem C8_try_parse_dispatch_witness :
    AmlParser.try_parse AmlParser.parse_name_path
        { stream := { data := [0x00, 0x00], offset := 0 },
          scope := "", namespaceStore := [] } =
      PResult.ok (some "")
        { stream := { data := [0x00, 0x00], offset := 1 },
          scope := "", namespaceStore := [] }
      ∧ AmlParser.try_parse AmlParser.parse_name_path
        { stream := { data := [0x30, 0x00], offset := 0 },
          scope := "", namespaceStore := [] } =
      PResult.ok (none : Option String)
        { stream := { data := [0x30, 0x00], offset := 0 },
          scope := "", namespaceStore := [] }
      ∧ AmlParser.try_parse AmlParser.parse_name_path
        { stream := { data := [], offset := 0 },
          scope := "", namespaceStore := [] } =
      PResult.err (PError.aml AmlError.EndOfStream)
        { stream := { data := [], offset := 0 },
          scope := "", namespaceStore := [] } := by
  refine ⟨?_, ?_, ?_⟩
  · exact (C8_try_parse_dispatch AmlParser.parse_name_path
      { stream := { data := [0x00, 0x00], offset := 0 },
        scope := "", namespaceStore := [] }).1 ""
      { stream := { data := [0x00, 0x00], offset := 1 },
        scope := "", namespaceStore := [] } (by decide)
  · exact (C8_try_parse_dispatch AmlParser.parse_name_path
      { stream := { data := [0x30, 0x00], offset := 0 },
        scope := "", namespaceStore := [] }).2.1 0x30
      { stream := { data := [0x30, 0x00], offset := 1 },
        scope := "", namespaceStore := [] } (by decide)
  · exact (C8_try_parse_dispatch AmlParser.parse_name_path
      { stream := { data := [], offset := 0 },
        scope := "", namespaceStore := [] }).2.2
      (PError.aml AmlError.EndOfStream)
      { stream := { data := [], offset := 0 },
        scope := "", namespaceStore := [] } (by decide)
      (fun b hb => by simp at hb)

/-- When the head byte is known, `match_opcode` answers its equality test
against the opcode without touching the state. -/
theorem match_opcode_of_peek {s : AmlParserState} {b : Nat}
    (h : s.stream.peek = Except.ok b) (op : Nat) :
    AmlParser.match_opcode op s = PResult.ok (b == op) s := by
  simp [AmlParser.match_opcode, AmlParser.match_byte, pbind, peekP, h,
    matches_byte, ppure]

/-- C9 counterexample: `parse_type1_opcode`, reached for any term object
that is not a scope, op-region or field declaration, does not produce a
structured not-yet-supported error result — it aborts with the
`unimplemented!()` panic, which is not an `AmlError` value at all. -/
theorem C9_extension_point_counterexample :
    AmlParser.parse_type1_opcode
        { stream := { data := [0xAA, 0xBB], offset := 0 },
          scope := "", namespaceStore := [] } =
      PResult.err PError.unimplementedPanic
        { stream := { data := [0xAA, 0xBB], offset := 0 },
          scope := "", namespaceStore := [] }
      ∧ AmlParser.parse_type1_opcode
        { stream := { data := [0xAA, 0xBB], offset := 0 },
          scope := "", namespaceStore := [] } ≠
      PResult.err (PError.aml AmlError.NotYetSupported)
        { stream := { data := [0xAA, 0xBB], offset := 0 },
          scope := "", namespaceStore := [] } := by
  exact ⟨by decide, by decide⟩

/-- C9 (amended): every grammar production left as an extension point
fails explicitly with the `unimplemented!()` panic when encountered —
never a silent misparse, never divergence, but also never a structured
not-yet-supported error value.  Conjuncts: type-1 opcodes, field elements
and buffer objects abort on every state; a string-literal prefix byte, a
caret-prefixed name, a multi-segment name prefix, and the revision
operator's two-byte form abort when they are the next input. -/
theorem C9_extension_points_panic :
    (∀ s : AmlParserState,
        AmlParser.parse_type1_opcode s = PResult.err PError.unimplementedPanic s)
  ∧ (∀ s : AmlParserState,
        AmlParser.parse_field_element s = PResult.err PError.unimplementedPanic s)
  ∧ (∀ s : AmlParserState,
        AmlParser.parse_def_buffer s = PResult.err PError.unimplementedPanic s)
  ∧ (∀ s : AmlParserState, s.stream.peek = Except.ok opcodes.STRING_PFX →
        AmlParser.parse_computational_data s =
          PResult.err PError.unimplementedPanic s)
  ∧ (∀ s : AmlParserState, s.stream.peek = Except.ok 0x5E →
        AmlParser.parse_name_string s = PResult.err PError.unimplementedPanic s)
  ∧ (∀ s : AmlParserState, s.stream.peek = Except.ok opcodes.MULTI_NAME_PFX →
        AmlParser.parse_name_path s = PResult.err PError.unimplementedPanic s)
  ∧ (∀ s : AmlParserState,
        s.stream.peek = Except.ok opcodes.EXT_OPCODE_PFX →
        AmlStream.peek { data := s.stream.data, offset := s.stream.offset + 1 } =
          Except.ok opcodes.EXT_REVISION_OP →
        AmlParser.parse_computational_data s =
          PResult.err PError.unimplementedPanic
            { s with stream :=
                { data := s.stream.data, offset := s.stream.offset + 1 } }) := by
  refine ⟨fun s => rfl, fun s => rfl, fun s => rfl, ?_, ?_, ?_, ?_⟩
  · intro s h
    simp [AmlParser.parse_computational_data, pbind, match_opcode_of_peek h,
      opcodes.BYTE_CONST, opcodes.WORD_CONST, opcodes.DWORD_CONST,
      opcodes.QWORD_CONST, opcodes.STRING_PFX, ppure, throwP]
  · intro s h
    simp [AmlParser.parse_name_string, pbind, peekP, h, ppure, throwP]
  · intro s h
    simp [AmlParser.parse_name_path, pbind, peekP, h, ppure, throwP,
      opcodes.NULL_NAME, opcodes.DUAL_NAME_PFX, opcodes.MULTI_NAME_PFX]
  · intro s h1 h2
    simp [AmlParser.parse_computational_data, pbind, match_opcode_of_peek h1,
      opcodes.BYTE_CONST, opcodes.WORD_CONST, opcodes.DWORD_CONST,
      opcodes.QWORD_CONST, opcodes.STRING_PFX, opcodes.ZERO_OP,
      opcodes.ONE_OP, opcodes.ONES_OP, opcodes.EXT_OPCODE_PFX,
      opcodes.EXT_REVISION_OP, ppure, throwP,
      AmlParser.match_ext_opcode, AmlParser.match_byte, peekP, h1,
      streamNextP, liftStream, AmlStream.next, h2, matches_byte]

/-- C9 witness: the amended theorem applied at concrete inputs — a
string-literal prefix under `parse_computational_data`, a caret under
`parse_name_string`, a multi-segment prefix under `parse_name_path`, and
the revision operator's two bytes under `parse_computational_data` all
abort with the unimplemented panic. -/
theorem C9_extension_points_panic_witness :
    AmlParser.parse_computational_data
        { stream := { data := [0x0D, 0x00], offset := 0 },
          scope := "", namespaceStore := [] } =
      PResult.err PError.unimplementedPanic
        { stream := { data := [0x0D, 0x00], offset := 0 },
          scope := "", namespaceStore := [] }
      ∧ AmlParser.parse_name_string
        { stream := { data := [0x5E, 0x00], offset := 0 },
          scope := "", namespaceStore := [] } =
      PResult.err PError.unimplementedPanic
        { stream := { data := [0x5E, 0x00], offset := 0 },
          scope := "", namespaceStore := [] }
      ∧ AmlParser.parse_name_path
        { stream := { data := [0x2F, 0x00], offset := 0 },
          scope := "", namespaceStore := [] } =
      PResult.err PError.unimplementedPanic
        { stream := { data := [0x2F, 0x00], offset := 0 },
          scope := "", namespaceStore := [] }
      ∧ AmlParser.parse_computational_data
        { stream := { data := [0x5B, 0x30, 0x00], offset := 0 },
          scope := "", namespaceStore := [] } =
      PResult.err PError.unimplementedPanic
        { stream := { data := [0x5B, 0x30, 0x00], offset := 1 },
          scope := "", namespaceStore := [] } := by
  refine ⟨?_, ?_, ?_, ?_⟩
  · exact C9_extension_points_panic.2.2.2.1
      { stream := { data := [0x0D, 0x00], offset := 0 },
        scope := "", namespaceStore := [] } (by decide)
  · exact C9_extension_points_panic.2.2.2.2.1
      { stream := { data := [0x5E, 0x00], offset := 0 },
        scope := "", namespaceStore := [] } (by decide)
  · exact C9_extension_points_panic.2.2.2.2.2.1
      { stream := { data := [0x2F, 0x00], offset := 0 },
        scope := "", namespaceStore := [] } (by decide)
  · exact C9_extension_points_panic.2.2.2.2.2.2
      { stream := { data := [0x5B, 0x30, 0x00], offset := 0 },
        scope := "", namespaceStore := [] } (by decide) (by decide)
